import Mathlib

/-!
Verification development for the asr-playground transcription tester
(`src/app.py`).  The Python source is shallowly embedded: pure fragments
become Lean functions, the Qt main-window state becomes an explicit
`AppState` record with one handler per event-handling method, each worker
thread (`GroqWorker.run`, `DeepgramWorker.run`) becomes a function from the
outcome of its network call to the pair it emits on `result_ready`.
Python floats (latency, accuracy percentages) are idealised as rationals;
Python exceptions are modelled with `Except String`.
-/

namespace AsrApp

/-! ## Python string helpers

`str.strip()` and `str.split()` (no separator: split on whitespace runs,
dropping empty pieces) are re-implemented structurally over the character
list so that they reduce inside `decide`/`rfl`. -/

def pyStrip (s : String) : String :=
  String.mk (((s.toList.dropWhile Char.isWhitespace).reverse.dropWhile
      Char.isWhitespace).reverse)

def splitWsAux : List Char → List Char → List String
  | [], acc => if acc.isEmpty then [] else [String.mk acc.reverse]
  | c :: cs, acc =>
    if c.isWhitespace then
      if acc.isEmpty then splitWsAux cs []
      else String.mk acc.reverse :: splitWsAux cs []
    else splitWsAux cs (c :: acc)

def pySplitWs (s : String) : List String :=
  splitWsAux s.toList []

/-! ## Python JSON values and the dict/list accesses used by the code -/

inductive Json where
  | null
  | bool (b : Bool)
  | num (n : Int)
  | str (s : String)
  | arr (xs : List Json)
  | obj (kvs : List (String × Json))

def lookupKV : List (String × Json) → String → Option Json
  | [], _ => none
  | (k, v) :: rest, key => if k = key then some v else lookupKV rest key

/-- Python `x.get(key, default)`: on a dict, the stored value when the key
is present (even when that value is `None`), otherwise the default; on any
non-dict value the attribute access raises `AttributeError`. -/
def pyGet : Json → String → Json → Except String Json
  | .obj kvs, key, dflt => .ok ((lookupKV kvs key).getD dflt)
  | _, _, _ => .error "AttributeError: object has no attribute get"

/-- Python `x[0]`: head of a non-empty list; `IndexError` on an empty list;
on a string, its first character (a one-character string) or `IndexError`
when empty; other values raise (`TypeError`, or `KeyError` for a dict whose
keys are strings — both collapsed into one error constructor here since the
code only ever catches them wholesale). -/
def pyIndexZero : Json → Except String Json
  | .arr (x :: _) => .ok x
  | .arr [] => .error "list index out of range"
  | .str s =>
      if s.isEmpty then .error "string index out of range"
      else .ok (.str (String.mk [s.toList.headD ' ']))
  | _ => .error "TypeError: object is not subscriptable"

/-! ## Worker threads (`GroqWorker.run`, `DeepgramWorker.run`)

A run's interaction with the outside world is the outcome of the
`requests.post` call: either some statement in the `try` block up to and
including the post raises (file open/read failure, network error), or a
response object comes back carrying the measured elapsed time, an HTTP
status code (which the code never inspects), and the result of
`response.json()`. -/

structure HttpResponse where
  status : Nat
  elapsedSec : ℚ
  body : Except String Json

inductive CallInput where
  | raises (msg : String)
  | returns (resp : HttpResponse)

/-- The `try` block of `GroqWorker.run` after the post outcome is fixed:
parse the body, then `data.get("text", "")`.  A present but non-string
`"text"` value is mapped to an error here; in the Python source such a
value would instead escape at `emit` time — no theorem below exercises
that branch. -/
def groqAttempt (inp : CallInput) : Except String (String × ℚ) :=
  match inp with
  | .raises msg => .error msg
  | .returns resp =>
    match resp.body with
    | .error msg => .error msg
    | .ok data =>
      match pyGet data "text" (.str "") with
      | .error msg => .error msg
      | .ok (.str t) => .ok (t, resp.elapsedSec)
      | .ok _ => .error "TypeError: emit expects str"

/-- `GroqWorker.run`: the `(transcription, elapsed)` pair emitted on
`result_ready`.  The `except` clause turns any raised exception `e` into
`("Error: " ++ e, 0.0)`. -/
def groqRun (inp : CallInput) : String × ℚ :=
  match groqAttempt inp with
  | .ok r => r
  | .error msg => ("Error: " ++ msg, 0)

/-- The chained navigation in `DeepgramWorker.run`:
`data.get("results", {}).get("channels", [{}])[0]
     .get("alternatives", [{}])[0].get("transcript", "")`. -/
def deepgramNav (data : Json) : Except String Json :=
  match pyGet data "results" (.obj []) with
  | .error m => .error m
  | .ok r =>
    match pyGet r "channels" (.arr [.obj []]) with
    | .error m => .error m
    | .ok ch =>
      match pyIndexZero ch with
      | .error m => .error m
      | .ok c0 =>
        match pyGet c0 "alternatives" (.arr [.obj []]) with
        | .error m => .error m
        | .ok al =>
          match pyIndexZero al with
          | .error m => .error m
          | .ok a0 => pyGet a0 "transcript" (.str "")

/-- The `try` block of `DeepgramWorker.run` after the post outcome is
fixed (same conventions as `groqAttempt`). -/
def deepgramAttempt (inp : CallInput) : Except String (String × ℚ) :=
  match inp with
  | .raises msg => .error msg
  | .returns resp =>
    match resp.body with
    | .error msg => .error msg
    | .ok data =>
      match deepgramNav data with
      | .error msg => .error msg
      | .ok (.str t) => .ok (t, resp.elapsedSec)
      | .ok _ => .error "TypeError: emit expects str"

/-- `DeepgramWorker.run`: the emitted `(transcription, elapsed)` pair. -/
def deepgramRun (inp : CallInput) : String × ℚ :=
  match deepgramAttempt inp with
  | .ok r => r
  | .error msg => ("Error: " ++ msg, 0)

/-- Whether the `try` block raised, i.e. whether the `except` branch ran. -/
def isFailure {α : Type} : Except String α → Bool
  | .error _ => true
  | .ok _ => false

/-! ## TranscriptionWidget / ClickableLabel (accuracy model)

A `ClickableLabel` is a word with its `selected` flag (`markedInaccurate`);
the widget keeps its word labels, the displayed speed and the accuracy
label (`none` rendering as "Accuracy: N/A").  The `:.2f` / `:.1f` label
formatting is presentation-only and elided: the numeric values are kept. -/

structure WordLabel where
  text : String
  selected : Bool
deriving DecidableEq

/-- `sum(1 for label in self.word_labels if label.selected)`. -/
def inaccurateCount (ws : List WordLabel) : Nat :=
  (ws.filter (fun w => w.selected)).length

/-- `TranscriptionWidget.update_accuracy`: "N/A" (`none`) when there are no
words, otherwise `((total - inaccurate) / total) * 100`. -/
def accuracyOf (ws : List WordLabel) : Option ℚ :=
  if ws.length = 0 then none
  else some (((ws.length : ℚ) - (inaccurateCount ws : ℚ)) / (ws.length : ℚ) * 100)

structure Widget where
  speed : ℚ
  words : List WordLabel
  accuracy : Option ℚ
deriving DecidableEq

/-- `TranscriptionWidget.set_transcription`: store the speed, rebuild the
word labels from `text.split()` with every flag cleared, then
`update_accuracy`. -/
def set_transcription (w : Widget) (text : String) (speed : ℚ) : Widget :=
  let ws := (pySplitWs text).map (fun t => { text := t, selected := false })
  { w with speed := speed, words := ws, accuracy := accuracyOf ws }

/-- `ClickableLabel.mousePressEvent` on the label at position `i`: flip its
`selected` flag (labels at other positions untouched; an out-of-range `i`
corresponds to no label being clicked and leaves the list unchanged). -/
def toggleAt : List WordLabel → Nat → List WordLabel
  | [], _ => []
  | w :: ws, 0 => { w with selected := !w.selected } :: ws
  | w :: ws, n + 1 => w :: toggleAt ws n

/-- A click on word `i`: the flip plus the connected `update_accuracy`. -/
def toggleWord (w : Widget) (i : Nat) : Widget :=
  let ws := toggleAt w.words i
  { w with words := ws, accuracy := accuracyOf ws }

def initWidget : Widget :=
  { speed := 0, words := [], accuracy := none }

/-! ## MainWindow (orchestrator) -/

/-- The WAV container written by `record_audio`: header parameters plus the
concatenated frames (`b''.join(self.frames)`). -/
structure WavFile where
  nchannels : Nat
  sampwidth : Nat
  framerate : Nat
  data : List Nat
deriving DecidableEq

def encodeWav (frames : List (List Nat)) : WavFile :=
  { nchannels := 1, sampwidth := 2, framerate := 16000, data := frames.flatten }

/-- The `MainWindow` state.  `captureCount` is a ghost counter of capture
sessions started (each `threading.Thread(target=self.record_audio).start()`),
`groqBusy`/`dgBusy` mark a worker thread in flight, and
`groqKeyUsed`/`dgKeyUsed` record the api key handed to the most recently
constructed worker (the constructor argument). -/
structure AppState where
  recording : Bool
  frames : List (List Nat)
  wavFile : WavFile
  groqField : String
  deepgramField : String
  statusMsg : String
  groqWidget : Widget
  deepgramWidget : Widget
  captureCount : Nat
  groqBusy : Bool
  dgBusy : Bool
  groqKeyUsed : Option String
  dgKeyUsed : Option String
deriving DecidableEq

/-- `MainWindow.__init__` with the two credential fields holding the given
texts (the file `audio.wav` does not exist yet; its modelled content is the
empty container). -/
def mkIdleState (groqText dgText : String) : AppState :=
  { recording := false, frames := [], wavFile := encodeWav [],
    groqField := groqText, deepgramField := dgText,
    statusMsg := "Press SPACE to start recording.",
    groqWidget := initWidget, deepgramWidget := initWidget,
    captureCount := 0, groqBusy := false, dgBusy := false,
    groqKeyUsed := none, dgKeyUsed := none }

/-- `MainWindow.start_recording`: set the flag, show the status, clear the
frame list and start the capture thread (the ghost counter records the new
capture session). -/
def start_recording (s : AppState) : AppState :=
  { s with recording := true,
           statusMsg := "Recording while SPACE is held down...",
           frames := [],
           captureCount := s.captureCount + 1 }

/-- `MainWindow.keyPressEvent` for the SPACE key: start recording unless
the `recording` flag is already set (this flag is the only guard). -/
def keyPressSpace (s : AppState) : AppState :=
  if s.recording then s else start_recording s

/-- `MainWindow.start_transcription`: strip both credential fields; with
either empty, only show "Please enter both API keys!" and return; otherwise
construct and start the Groq worker on `audio.wav` (the local
`deepgram_api_key` is discarded — nothing stores it for later). -/
def start_transcription (s : AppState) : AppState :=
  let gk := pyStrip s.groqField
  let dk := pyStrip s.deepgramField
  if gk = "" ∨ dk = "" then
    { s with statusMsg := "Please enter both API keys!" }
  else
    { s with statusMsg := "Starting Groq Cloud transcription...",
             groqBusy := true, groqKeyUsed := some gk }

/-- `MainWindow.stop_recording`: guarded against repeated stops; clears the
flag, joins the capture thread (at which point `record_audio` has stored
the captured frames and written the WAV file), then calls
`start_transcription`. -/
def stop_recording (s : AppState) (captured : List (List Nat)) : AppState :=
  if s.recording then
    start_transcription
      { s with recording := false,
               frames := captured,
               wavFile := encodeWav captured,
               statusMsg := "Processing transcriptions..." }
  else s

/-- `MainWindow.keyReleaseEvent` for the SPACE key. -/
def keyReleaseSpace (s : AppState) (captured : List (List Nat)) : AppState :=
  if s.recording then stop_recording s captured else s

/-- `MainWindow.handle_groq_result` (connected to `result_ready`). -/
def handle_groq_result (s : AppState) (t : String) (sp : ℚ) : AppState :=
  { s with groqWidget := set_transcription s.groqWidget t sp,
           statusMsg := "Groq Cloud transcription complete. Starting Deepgram..." }

/-- `MainWindow.start_deepgram_transcription` (connected to `finished`):
re-reads the Deepgram credential field, with no emptiness check, and starts
the Deepgram worker. -/
def start_deepgram_transcription (s : AppState) : AppState :=
  { s with statusMsg := "Starting Deepgram transcription...",
           dgBusy := true, dgKeyUsed := some (pyStrip s.deepgramField) }

/-- Delivery of the Groq worker's completion: `result_ready` is emitted at
the end of `run`, `finished` after `run` returns, and both queued signals
are handled in that order, so `handle_groq_result` runs before
`start_deepgram_transcription` (the thread being finished clears the
in-flight marker). -/
def deliverGroqCompletion (s : AppState) (t : String) (sp : ℚ) : AppState :=
  start_deepgram_transcription (handle_groq_result { s with groqBusy := false } t sp)

/-- `MainWindow.handle_deepgram_result`. -/
def handle_deepgram_result (s : AppState) (t : String) (sp : ℚ) : AppState :=
  { s with deepgramWidget := set_transcription s.deepgramWidget t sp,
           statusMsg := "All transcriptions complete. Press SPACE to start a new recording.",
           dgBusy := false }

/-- Orchestrator states as the spec names them, read off the code's flags:
`Idle` is "no recording and no worker in flight". -/
def isIdle (s : AppState) : Bool :=
  !s.recording && !s.groqBusy && !s.dgBusy

def isProcessing (s : AppState) : Bool :=
  s.groqBusy || s.dgBusy

/-! ## One full recording cycle as an observable trace -/

inductive Act where
  | captureStart
  | groqCall (blob : WavFile) (key : String)
  | groqForward (t : String) (sp : ℚ)
  | dgCall (blob : WavFile) (key : String)
  | dgForward (t : String) (sp : ℚ)
deriving DecidableEq

/-- One press/release cycle from a given state, with `captured` the frames
the capture thread accumulates and `g`, `d` the network outcomes of the two
calls.  The order of the emitted actions follows the source's wiring: the
Groq worker is started inside `start_transcription` (reached from
`keyReleaseEvent`), it reads `audio.wav` during `run`, emits
`result_ready` (→ `handle_groq_result`) and then `finished`
(→ `start_deepgram_transcription`), after which the Deepgram worker reads
`audio.wav` and emits its own result. -/
def runCycle (s0 : AppState) (captured : List (List Nat)) (g d : CallInput) :
    List Act × AppState :=
  let startActs : List Act := if s0.recording then [] else [Act.captureStart]
  let s1 := keyPressSpace s0
  let s2 := keyReleaseSpace s1 captured
  if s2.groqBusy then
    let gr := groqRun g
    let s3 := deliverGroqCompletion s2 gr.1 gr.2
    let dr := deepgramRun d
    let s4 := handle_deepgram_result s3 dr.1 dr.2
    (startActs ++
      [Act.groqCall s2.wavFile (s2.groqKeyUsed.getD ""),
       Act.groqForward gr.1 gr.2,
       Act.dgCall s3.wavFile (s3.dgKeyUsed.getD ""),
       Act.dgForward dr.1 dr.2], s4)
  else (startActs, s2)

/-! ## Helper lemmas -/

theorem toggleAt_toggleAt (l : List WordLabel) : ∀ i, toggleAt (toggleAt l i) i = l := by
  induction l with
  | nil => intro i; rfl
  | cons w ws ih =>
    intro i
    cases i with
    | zero => simp [toggleAt, Bool.not_not]
    | succ n => simp [toggleAt, ih n]

theorem append_error_ne_empty (m : String) : ("Error: " ++ m) ≠ "" := by
  intro h
  have h2 := congrArg String.data h
  simp [String.data] at h2

/-! ## Claim theorems -/

/-- C3, counterexample: a transcription call that fails (here the network
call raises `"boom"`) emits the error surfaced inside the text slot,
`"Error: boom"`, which is not the empty string — the claim's "text field
equal to the empty string" is false on the code (there is no separate
error field at all; the emitted pair is just `(text, elapsed)`). -/
theorem failed_call_text_is_error_string :
    isFailure (groqAttempt (CallInput.raises "boom")) = true ∧
    groqRun (CallInput.raises "boom") = ("Error: boom", 0) ∧
    ¬(groqRun (CallInput.raises "boom")).1 = "" :=
  ⟨rfl, rfl, by decide⟩

/-- C3, amended: for every transcription call on either backend that fails
(any exception raised in the `try` block: network error, malformed
response body), the emitted result carries the error as the non-empty
string `"Error: <message>"` in the text slot — there is no separate error
field — and the reported latency is `0`. -/
theorem failure_result_error_text_zero_latency
    (gi di : CallInput) (mg md : String)
    (hg : groqAttempt gi = Except.error mg)
    (hd : deepgramAttempt di = Except.error md) :
    groqRun gi = ("Error: " ++ mg, 0) ∧
    deepgramRun di = ("Error: " ++ md, 0) ∧
    ("Error: " ++ mg) ≠ "" ∧ ("Error: " ++ md) ≠ "" :=
  ⟨by simp [groqRun, hg], by simp [deepgramRun, hd],
   append_error_ne_empty mg, append_error_ne_empty md⟩

/-- Witness for `failure_result_error_text_zero_latency` at two concrete
failing calls. -/
theorem failure_result_error_text_zero_latency_witness :
    groqAttempt (CallInput.raises "boom") = Except.error "boom" ∧
    deepgramAttempt (CallInput.raises "down") = Except.error "down" ∧
    (groqRun (CallInput.raises "boom") = ("Error: " ++ "boom", 0) ∧
     deepgramRun (CallInput.raises "down") = ("Error: " ++ "down", 0) ∧
     ("Error: " ++ "boom") ≠ "" ∧ ("Error: " ++ "down") ≠ "") :=
  ⟨rfl, rfl,
   failure_result_error_text_zero_latency (CallInput.raises "boom")
     (CallInput.raises "down") "boom" "down" rfl rfl⟩

/-- C5: every transcription call on either backend that fails — including
failures after the network response has been received, such as a JSON
parse error, where a partial elapsed time had already been measured —
reports latency exactly `0`: the `except` branch overwrites `elapsed`
with `0.0`. -/
theorem any_failure_reports_zero_latency :
    ∀ inp : CallInput,
      (isFailure (groqAttempt inp) = true → (groqRun inp).2 = 0) ∧
      (isFailure (deepgramAttempt inp) = true → (deepgramRun inp).2 = 0) := by
  intro inp
  constructor
  · intro h
    cases hga : groqAttempt inp with
    | ok r => rw [hga] at h; exact absurd h (by simp [isFailure])
    | error m => simp [groqRun, hga]
  · intro h
    cases hda : deepgramAttempt inp with
    | ok r => rw [hda] at h; exact absurd h (by simp [isFailure])
    | error m => simp [deepgramRun, hda]

def jsonFailCall : CallInput :=
  .returns { status := 200, elapsedSec := 7,
             body := .error "Expecting value: line 1 column 1 (char 0)" }

/-- Witness for `any_failure_reports_zero_latency`: a response received
after 7 seconds whose body fails to parse as JSON still reports latency
`0` on both backends. -/
theorem any_failure_reports_zero_latency_witness :
    isFailure (groqAttempt jsonFailCall) = true ∧
    (groqRun jsonFailCall).2 = 0 ∧
    isFailure (deepgramAttempt jsonFailCall) = true ∧
    (deepgramRun jsonFailCall).2 = 0 :=
  ⟨rfl, (any_failure_reports_zero_latency jsonFailCall).1 rfl,
   rfl, (any_failure_reports_zero_latency jsonFailCall).2 rfl⟩

/-- C6: for every word sequence with at least one word, the accuracy score
is `(total - markedCount) / total * 100`; it is `100` when no word is
marked and `0` when every word is marked. -/
theorem accuracy_score_formula (ws : List WordLabel) (h : 0 < ws.length) :
    accuracyOf ws =
      some (((ws.length : ℚ) - (inaccurateCount ws : ℚ)) / (ws.length : ℚ) * 100)
    ∧ (inaccurateCount ws = 0 → accuracyOf ws = some 100)
    ∧ (inaccurateCount ws = ws.length → accuracyOf ws = some 0) := by
  have hne : ws.length ≠ 0 := Nat.pos_iff_ne_zero.mp h
  have hq : (ws.length : ℚ) ≠ 0 := Nat.cast_ne_zero.mpr hne
  refine ⟨by simp [accuracyOf, hne], ?_, ?_⟩
  · intro h0
    simp only [accuracyOf, hne, if_false, h0, Nat.cast_zero, sub_zero]
    rw [div_self hq, one_mul]
  · intro hall
    simp [accuracyOf, hne, hall]

def twoWordsOneMarked : List WordLabel :=
  [{ text := "hello", selected := false }, { text := "world", selected := true }]

/-- Witness for `accuracy_score_formula` on a two-word transcript with one
word marked inaccurate. -/
theorem accuracy_score_formula_witness :
    0 < twoWordsOneMarked.length ∧
    (accuracyOf twoWordsOneMarked =
       some (((twoWordsOneMarked.length : ℚ) -
         (inaccurateCount twoWordsOneMarked : ℚ)) /
           (twoWordsOneMarked.length : ℚ) * 100)
     ∧ (inaccurateCount twoWordsOneMarked = 0 →
          accuracyOf twoWordsOneMarked = some 100)
     ∧ (inaccurateCount twoWordsOneMarked = twoWordsOneMarked.length →
          accuracyOf twoWordsOneMarked = some 0)) :=
  ⟨by decide, accuracy_score_formula twoWordsOneMarked (by decide)⟩

/-- C7: setting the empty transcript always yields zero word labels and
the "N/A" (`none`) score, and the score computation never divides by zero:
whenever a numeric score is produced, the word total — the denominator —
is non-zero (the `total == 0` guard routes the empty case to "N/A"). -/
theorem empty_transcript_total_zero_na :
    (∀ (w : Widget) (sp : ℚ),
        (set_transcription w "" sp).words = [] ∧
        (set_transcription w "" sp).accuracy = none) ∧
    (∀ (ws : List WordLabel) (q : ℚ),
        accuracyOf ws = some q → (ws.length : ℚ) ≠ 0) := by
  constructor
  · intro w sp
    exact ⟨rfl, rfl⟩
  · intro ws q hq hzero
    have hlen : ws.length = 0 := by exact_mod_cast hzero
    simp [accuracyOf, hlen] at hq

/-- Witness for `empty_transcript_total_zero_na` at a one-word transcript
(whose score is `some 100`) and at the empty transcript. -/
theorem empty_transcript_total_zero_na_witness :
    (set_transcription initWidget "" 0).words = [] ∧
    (set_transcription initWidget "" 0).accuracy = none ∧
    accuracyOf [{ text := "a", selected := false }] = some 100 ∧
    (([{ text := "a", selected := false }] : List WordLabel).length : ℚ) ≠ 0 :=
  ⟨(empty_transcript_total_zero_na.1 initWidget 0).1,
   (empty_transcript_total_zero_na.1 initWidget 0).2,
   by norm_num [accuracyOf, inaccurateCount, List.filter],
   empty_transcript_total_zero_na.2 [{ text := "a", selected := false }] 100
     (by norm_num [accuracyOf, inaccurateCount, List.filter])⟩

/-- C8: toggling the word at any valid index twice returns its
`markedInaccurate` flag (indeed the whole word list) to its original
value and restores the exact prior accuracy score. -/
theorem toggle_twice_restores_flag_and_score (w : Widget) (i : Nat)
    (_hi : i < w.words.length) (hw : w.accuracy = accuracyOf w.words) :
    (toggleWord (toggleWord w i) i).words = w.words ∧
    (toggleWord (toggleWord w i) i).accuracy = w.accuracy := by
  refine ⟨by simp [toggleWord, toggleAt_toggleAt], ?_⟩
  simp [toggleWord, toggleAt_toggleAt, hw]

def twoWordWidget : Widget :=
  { speed := 0, words := twoWordsOneMarked, accuracy := accuracyOf twoWordsOneMarked }

/-- Witness for `toggle_twice_restores_flag_and_score` at index 1 of a
two-word widget. -/
theorem toggle_twice_restores_flag_and_score_witness :
    1 < twoWordWidget.words.length ∧
    twoWordWidget.accuracy = accuracyOf twoWordWidget.words ∧
    ((toggleWord (toggleWord twoWordWidget 1) 1).words = twoWordWidget.words ∧
     (toggleWord (toggleWord twoWordWidget 1) 1).accuracy = twoWordWidget.accuracy) :=
  ⟨by decide, rfl, toggle_twice_restores_flag_and_score twoWordWidget 1 (by decide) rfl⟩

/-- C10: the Deepgram credential handed to the second worker is re-read
from the credential input field at the moment the Groq worker's `finished`
signal is handled — it is `pyStrip` of whatever the field holds then,
which may differ from the value validated at cycle start — and the worker
is dispatched (`dgBusy`) unconditionally: no non-emptiness check is
re-applied. -/
theorem deepgram_key_reread_at_backend1_completion :
    ∀ (s : AppState) (t : String) (sp : ℚ),
      (deliverGroqCompletion s t sp).dgKeyUsed = some (pyStrip s.deepgramField) ∧
      (deliverGroqCompletion s t sp).dgBusy = true :=
  fun _ _ _ => ⟨rfl, rfl⟩

def s_missingKey : AppState := mkIdleState "k" ""

/-- C1, counterexample: from `Idle` with the Deepgram credential field
empty, a SPACE press starts recording anyway — the state leaves `Idle`,
a capture session starts (ghost counter increments) and the status shows
the recording message, not a configuration error.  The credential check
sits in `start_transcription`, reached only at key release. -/
theorem holdStart_without_credentials_starts_capture :
    isIdle s_missingKey = true ∧
    pyStrip s_missingKey.deepgramField = "" ∧
    (keyPressSpace s_missingKey).recording = true ∧
    isIdle (keyPressSpace s_missingKey) = false ∧
    (keyPressSpace s_missingKey).captureCount = s_missingKey.captureCount + 1 ∧
    (keyPressSpace s_missingKey).statusMsg = "Recording while SPACE is held down..." := by
  decide

/-- C1, amended: the credential gate runs at hold release, not at cycle
start.  Releasing SPACE while recording (no worker in flight) with either
stripped credential empty returns the orchestrator to `Idle`, surfaces the
configuration error "Please enter both API keys!", dispatches no worker
and starts no new capture session — but the audio capture of the cycle
itself did occur during the hold. -/
theorem credential_error_surfaced_at_release (s : AppState)
    (captured : List (List Nat))
    (hrec : s.recording = true) (hgb : s.groqBusy = false) (hdb : s.dgBusy = false)
    (hkey : pyStrip s.groqField = "" ∨ pyStrip s.deepgramField = "") :
    (keyReleaseSpace s captured).recording = false ∧
    isIdle (keyReleaseSpace s captured) = true ∧
    (keyReleaseSpace s captured).statusMsg = "Please enter both API keys!" ∧
    (keyReleaseSpace s captured).groqKeyUsed = s.groqKeyUsed ∧
    (keyReleaseSpace s captured).dgKeyUsed = s.dgKeyUsed ∧
    (keyReleaseSpace s captured).captureCount = s.captureCount := by
  rcases hkey with hk | hk <;>
    simp [keyReleaseSpace, stop_recording, start_transcription, isIdle,
      hrec, hgb, hdb, hk]

def s_recNoKey : AppState := keyPressSpace (mkIdleState "" "k")

/-- Witness for `credential_error_surfaced_at_release`: recording with an
empty Groq key; the release surfaces the error and returns to `Idle`. -/
theorem credential_error_surfaced_at_release_witness :
    s_recNoKey.recording = true ∧ s_recNoKey.groqBusy = false ∧
    s_recNoKey.dgBusy = false ∧ pyStrip s_recNoKey.groqField = "" ∧
    ((keyReleaseSpace s_recNoKey []).recording = false ∧
     isIdle (keyReleaseSpace s_recNoKey []) = true ∧
     (keyReleaseSpace s_recNoKey []).statusMsg = "Please enter both API keys!" ∧
     (keyReleaseSpace s_recNoKey []).groqKeyUsed = s_recNoKey.groqKeyUsed ∧
     (keyReleaseSpace s_recNoKey []).dgKeyUsed = s_recNoKey.dgKeyUsed ∧
     (keyReleaseSpace s_recNoKey []).captureCount = s_recNoKey.captureCount) :=
  ⟨rfl, rfl, rfl, by decide,
   credential_error_surfaced_at_release s_recNoKey [] rfl rfl rfl
     (Or.inl (by decide))⟩

def s_processing : AppState :=
  keyReleaseSpace (keyPressSpace (mkIdleState "k" "k")) [[1]]

/-- C2, counterexample: a reachable `Processing(Backend1)` state (one full
press/release with both credentials present, Groq worker in flight).  The
`recording` flag — the only guard in `keyPressEvent` — is false there, so
a SPACE press is NOT ignored: it transitions to recording and starts a new
capture session. -/
theorem holdStart_during_processing_not_ignored :
    isProcessing s_processing = true ∧
    isIdle s_processing = false ∧
    s_processing.recording = false ∧
    (keyPressSpace s_processing).recording = true ∧
    (keyPressSpace s_processing).captureCount = s_processing.captureCount + 1 := by
  decide

/-- C2, amended: only a `holdStart` received while the `recording` flag is
set (i.e. while in `Recording`) is ignored — the state is completely
unchanged; during `Processing` the flag is back to false and the event is
not guarded. -/
theorem holdStart_while_recording_is_ignored (s : AppState)
    (h : s.recording = true) : keyPressSpace s = s := by
  simp [keyPressSpace, h]

def s_recordingBoth : AppState := keyPressSpace (mkIdleState "k" "k")

/-- Witness for `holdStart_while_recording_is_ignored` on a concrete
recording state. -/
theorem holdStart_while_recording_is_ignored_witness :
    s_recordingBoth.recording = true ∧ keyPressSpace s_recordingBoth = s_recordingBoth :=
  ⟨rfl, holdStart_while_recording_is_ignored s_recordingBoth rfl⟩

def channelsEmptyBody : Json := .obj [("results", .obj [("channels", .arr [])])]

/-- C4, counterexample: in the response JSON whose `results.channels` is
the empty list, the `[0]` segment of the path is
missing (the `channels` list is present but empty).  There is no
empty-string fallback for it: the indexing raises `IndexError`, the
`except` clause catches it, and the transcript becomes the non-empty
string `"Error: list index out of range"` rather than resolving to `""`. -/
theorem empty_channels_list_raises_internally :
    deepgramNav channelsEmptyBody = Except.error "list index out of range" ∧
    deepgramRun (CallInput.returns
        { status := 200, elapsedSec := 3, body := .ok channelsEmptyBody }) =
      ("Error: list index out of range", 0) ∧
    ¬(deepgramRun (CallInput.returns
        { status := 200, elapsedSec := 3, body := .ok channelsEmptyBody })).1 = "" :=
  ⟨rfl, rfl, by decide⟩

/-- C4, amended: whenever the missing segment is a dict key — `results`
absent, `channels` absent from the results dict, `alternatives` absent
from the first channel, or `transcript` absent from the first alternative
— the chained `.get(..., default)` fallbacks make the transcript resolve
to the empty string without raising (hence zero words and an "N/A" score),
and delivery of the backend-2 result never touches backend 1's widget.
When a list segment (`[0]`) is present but empty, however, the indexing
raises and the caught exception yields an error-string transcript instead
(see the counterexample). -/
theorem missing_dict_key_falls_back_to_empty :
    (∀ kvs : List (String × Json), lookupKV kvs "results" = none →
        deepgramNav (Json.obj kvs) = Except.ok (Json.str "")) ∧
    (∀ (kvs rkvs : List (String × Json)),
        lookupKV kvs "results" = some (Json.obj rkvs) →
        lookupKV rkvs "channels" = none →
        deepgramNav (Json.obj kvs) = Except.ok (Json.str "")) ∧
    (∀ (ckvs : List (String × Json)) (rest : List Json),
        lookupKV ckvs "alternatives" = none →
        deepgramNav (Json.obj [("results", Json.obj
            [("channels", Json.arr (Json.obj ckvs :: rest))])]) =
          Except.ok (Json.str "")) ∧
    (∀ (akvs : List (String × Json)) (rest₁ rest₂ : List Json),
        lookupKV akvs "transcript" = none →
        deepgramNav (Json.obj [("results", Json.obj
            [("channels", Json.arr (Json.obj
               [("alternatives", Json.arr (Json.obj akvs :: rest₂))] :: rest₁))])]) =
          Except.ok (Json.str "")) ∧
    (∀ (s : AppState) (t : String) (sp : ℚ),
        (handle_deepgram_result s t sp).groqWidget = s.groqWidget) ∧
    (∀ (w : Widget) (sp : ℚ),
        (set_transcription w "" sp).words.length = 0 ∧
        (set_transcription w "" sp).accuracy = none) := by
  refine ⟨?_, ?_, ?_, ?_, fun s t sp => rfl, fun w sp => ⟨rfl, rfl⟩⟩
  · intro kvs h
    simp [deepgramNav, pyGet, h, pyIndexZero, lookupKV]
  · intro kvs rkvs h1 h2
    simp [deepgramNav, pyGet, h1, h2, pyIndexZero, lookupKV]
  · intro ckvs rest h
    simp [deepgramNav, pyGet, h, pyIndexZero, lookupKV]
  · intro akvs rest₁ rest₂ h
    simp [deepgramNav, pyGet, h, pyIndexZero, lookupKV]

/-- Witness for `missing_dict_key_falls_back_to_empty`: the empty dict
body (no `results` at all) resolves to the empty transcript. -/
theorem missing_dict_key_falls_back_to_empty_witness :
    lookupKV ([] : List (String × Json)) "results" = none ∧
    deepgramNav (Json.obj []) = Except.ok (Json.str "") :=
  ⟨rfl, missing_dict_key_falls_back_to_empty.1 [] rfl⟩

/-- C9: in a full recording cycle (idle start, both stripped credentials
non-empty) the observable trace is exactly: capture starts; the Groq
worker is dispatched and calls on the encoded blob; its outcome — success
or error — is forwarded to the widget; only then is the Deepgram worker
dispatched, calling on the same encoded blob; finally its outcome is
forwarded.  In particular the two backend calls are strictly sequential,
backend 1's result is visible before backend 2 starts, and both calls use
the same encoded WAV blob. -/
theorem backend_calls_sequential_same_blob (s0 : AppState)
    (captured : List (List Nat)) (g d : CallInput)
    (h0 : isIdle s0 = true)
    (hg : ¬pyStrip s0.groqField = "") (hd : ¬pyStrip s0.deepgramField = "") :
    (runCycle s0 captured g d).1 =
      [Act.captureStart,
       Act.groqCall (encodeWav captured) (pyStrip s0.groqField),
       Act.groqForward (groqRun g).1 (groqRun g).2,
       Act.dgCall (encodeWav captured) (pyStrip s0.deepgramField),
       Act.dgForward (deepgramRun d).1 (deepgramRun d).2] := by
  have h0' : (s0.recording = false ∧ s0.groqBusy = false) ∧ s0.dgBusy = false := by
    simpa [isIdle, Bool.and_eq_true, Bool.not_eq_true'] using h0
  obtain ⟨⟨hr, hb1⟩, hb2⟩ := h0'
  simp [runCycle, keyPressSpace, start_recording, keyReleaseSpace,
    stop_recording, start_transcription, deliverGroqCompletion,
    handle_groq_result, start_deepgram_transcription, handle_deepgram_result,
    hr, hg, hd]

def s_bothKeys : AppState := mkIdleState "gk" "dk"

/-- Witness for `backend_calls_sequential_same_blob` on a concrete cycle:
two captured chunks, Groq failing with a network error, Deepgram
succeeding with an empty body. -/
theorem backend_calls_sequential_same_blob_witness :
    isIdle s_bothKeys = true ∧ ¬pyStrip s_bothKeys.groqField = "" ∧
    ¬pyStrip s_bothKeys.deepgramField = "" ∧
    (runCycle s_bothKeys [[1, 2], [3]] (CallInput.raises "x")
        (CallInput.returns { status := 200, elapsedSec := 2,
                             body := .ok (Json.obj []) })).1 =
      [Act.captureStart,
       Act.groqCall (encodeWav [[1, 2], [3]]) (pyStrip s_bothKeys.groqField),
       Act.groqForward (groqRun (CallInput.raises "x")).1
         (groqRun (CallInput.raises "x")).2,
       Act.dgCall (encodeWav [[1, 2], [3]]) (pyStrip s_bothKeys.deepgramField),
       Act.dgForward
         (deepgramRun (CallInput.returns { status := 200, elapsedSec := 2,
                                           body := .ok (Json.obj []) })).1
         (deepgramRun (CallInput.returns { status := 200, elapsedSec := 2,
                                           body := .ok (Json.obj []) })).2] :=
  ⟨rfl, by decide, by decide,
   backend_calls_sequential_same_blob s_bothKeys [[1, 2], [3]]
     (CallInput.raises "x")
     (CallInput.returns { status := 200, elapsedSec := 2, body := .ok (Json.obj []) })
     rfl (by decide) (by decide)⟩

end AsrApp
